import Mathlib

/-!
Shallow embedding of `src/packages/runtime/src/templating/rendering-engine.ts`
(Aurelia runtime templating core) and proofs about it.

Conventions of the embedding:
* JavaScript's three-way distinction between `undefined`, `null` and a proper
  value is modelled by `JSVal` wherever the source distinguishes them
  (the `InstanceProvider` / `ViewFactoryProvider` state).  Where only
  "absent vs present" is observable, `Option` is used with `none` standing
  for `null`/`undefined`.
* Reference identity of JavaScript objects (used as `Map` keys by the
  rendering engine's caches) is modelled by a `Nat` identity field carried by
  each object; distinct references carry distinct identities.
* Mutation is modelled by explicit state passing: the `RenderingEngine`'s
  mutable caches are threaded through every operation, and thrown errors
  (`Reporter.error`, JS `TypeError`s) become `Except JSError`.
* External collaborators (the DOM node abstraction, the instruction renderer,
  the resolution container) are modelled only at the granularity the
  templating core observes: node sequences as tokens, render contexts as
  identities allocated by a counter.
-/

namespace Aurelia

/-- A JavaScript value slot that distinguishes `undefined`, `null`, and a
proper value, mirroring the source's reliance on `=== undefined`
versus an initializer of `null`. -/
inductive JSVal (T : Type) where
  | undef
  | null
  | val (t : T)
deriving DecidableEq, Repr

/-- Errors surfaced by the runtime: `Reporter.error(code)`,
`Reporter.error(code, arg)`, and `TypeError`s produced by member access on
`null`/`undefined`. -/
inductive JSError where
  | code (n : Nat)
  | codeMsg (n : Nat) (msg : String)
  | typeError (msg : String)
deriving DecidableEq, Repr

/-- `TemplateDefinition` from `definitions.ts`, restricted to the fields the
rendering engine reads: the `template` payload, the `build` record
(`required` flag and `compiler` name, with `""` standing for an
absent/empty — falsy — compiler name), `name`, `cache`, and `dependencies`.
The `id` field models the object's reference identity, which the engine's
caches use as their `Map` key. -/
structure TemplateDefinition where
  id : Nat
  name : String
  template : Option String
  buildRequired : Bool
  buildCompiler : String
  dependencies : List Nat
  cache : Nat
deriving DecidableEq, Repr

/-- JavaScript truthiness of a `template` payload: `undefined`/`null` and the
empty string are falsy. -/
def templateTruthy : Option String → Bool
  | none => false
  | some s => s != ""

/-- A template, as produced by `templateFromSource`: either the canonical
`noViewTemplate`, or a `CompiledTemplate` owning a node-sequence factory
(identified by `tid`, allocated fresh per construction) and a render context
(identified by `ctxId`, created as a child of `parentCtx` by
`createRenderContext`). The wrapped definition is the (possibly
compiler-produced) `templateDefinition` the instance holds. -/
inductive ITemplate where
  | noView
  | compiled (tid : Nat) (ctxId : Nat) (parentCtx : Nat) (defn : TemplateDefinition)
deriving DecidableEq, Repr

/-- `ITemplate.renderContext`: `null` on `noViewTemplate`, the owned render
context on a `CompiledTemplate`. -/
def ITemplate.renderContext : ITemplate → Option Nat
  | .noView => none
  | .compiled _ ctxId _ _ => some ctxId

/-- A node projection (`INodeSequence`): either `NodeSequence.empty`, or a
sequence stencilled out by the node-sequence factory of a compiled
template. -/
inductive INodeSequence where
  | empty
  | fromFactory (tid : Nat)
deriving DecidableEq, Repr

/-- The `$nodes` / `$context` slots of a renderable, as assigned by
`ITemplate.render`. -/
structure RenderTarget where
  nodes : JSVal INodeSequence
  context : JSVal Nat
deriving DecidableEq, Repr

/-- `render` on a template. `noViewTemplate.render` assigns
`NodeSequence.empty` and a `null` context. `CompiledTemplate.render` assigns
a node sequence created by the template's factory and the template's own
render context; the subsequent delegation to the render context's `render`
(the instruction renderer) is an external collaborator and is not part of the
observable state modelled here. -/
def ITemplate.render : ITemplate → RenderTarget → RenderTarget
  | .noView, r => { r with nodes := .val .empty, context := .null }
  | .compiled tid ctxId _ _, r =>
      { r with nodes := .val (.fromFactory tid), context := .val ctxId }

/-- `ViewFactory` (from `view.ts`), at the granularity the engine observes:
its reference identity `fid`, its `name`, the template it wraps, and its
recycling-cache size. -/
structure ViewFactory where
  fid : Nat
  name : String
  template : ITemplate
  cacheSize : Nat
deriving DecidableEq, Repr

/-- A pluggable named template compiler (`ITemplateCompiler`). -/
structure ITemplateCompiler where
  name : String
  compile : TemplateDefinition → TemplateDefinition

/-- `TemplatePartDefinitions`: a record mapping replaceable-part names to
replacement definitions. Present entries are definition objects and hence
truthy; an absent key reads as `undefined` (falsy). -/
abbrev TemplatePartDefinitions := List (String × TemplateDefinition)

/-! ## Scoped instance providers -/

/-- `InstanceProvider<T>`: `private instance: T = null`. The slot is a
`JSVal` because the source's `resolve` guard compares against `undefined`
while the initializer and `dispose` write `null`. -/
structure InstanceProvider (T : Type) where
  inst : JSVal T
deriving DecidableEq, Repr

/-- A freshly constructed `InstanceProvider`: the field initializer is
`null`. -/
def InstanceProvider.new {T : Type} : InstanceProvider T := ⟨.null⟩

/-- `InstanceProvider.prepare(instance)`: stores the value. -/
def InstanceProvider.prepare {T : Type} (_p : InstanceProvider T) (x : JSVal T) :
    InstanceProvider T := ⟨x⟩

/-- `InstanceProvider.resolve`: throws `Reporter.error(50)` when the slot is
`undefined`, otherwise returns the slot, `null` included. -/
def InstanceProvider.resolve {T : Type} (p : InstanceProvider T) :
    Except JSError (JSVal T) :=
  match p.inst with
  | .undef => .error (.code 50)
  | v => .ok v

/-- `InstanceProvider.dispose`: writes `null` back into the slot. -/
def InstanceProvider.dispose {T : Type} (_p : InstanceProvider T) :
    InstanceProvider T := ⟨.null⟩

/-! ## The rendering engine -/

/-- The conventional compiler name used when a definition omits one. -/
def defaultCompilerName : String := "default"

/-- The compiler registry built in the `RenderingEngine` constructor:
`templateCompilers.reduce((acc, item) => { acc[item.name] = item; return acc },
Object.create(null))`.  Later list entries overwrite earlier ones with the
same name. -/
def buildCompilerRegistry (templateCompilers : List ITemplateCompiler) :
    String → Option ITemplateCompiler :=
  templateCompilers.foldl
    (fun acc item => fun n => if n = item.name then some item else acc n)
    (fun _ => none)

/-- The mutable state of a `RenderingEngine`: the compiler registry populated
at construction, the root container (as a context identity), the three
identity-keyed caches (keyed by the `id` reference identity of their keys;
`behaviorLookup` is keyed by component-type identity), a log of the
definition identities passed to `compile` (newest first), and the counters
that hand out fresh identities for templates, render contexts, factories and
normalized definition objects.  `registrations` records the
`componentType.register(renderContext)` calls made for recursive
components. -/
structure RenderingEngine where
  compilers : String → Option ITemplateCompiler
  containerCtx : Nat
  templateLookup : List (Nat × ITemplate)
  factoryLookup : List (Nat × ViewFactory)
  compileLog : List Nat
  registrations : List (Nat × Nat)
  nextTemplateId : Nat
  nextContextId : Nat
  nextFactoryId : Nat
  nextDefId : Nat

/-- The `RenderingEngine` constructor: builds the compiler registry and
starts with empty caches. -/
def RenderingEngine.new (templateCompilers : List ITemplateCompiler)
    (containerCtx : Nat) : RenderingEngine :=
  { compilers := buildCompilerRegistry templateCompilers
    containerCtx := containerCtx
    templateLookup := []
    factoryLookup := []
    compileLog := []
    registrations := []
    nextTemplateId := 0
    nextContextId := 0
    nextFactoryId := 0
    nextDefId := 0 }

/-- `RenderingEngine.templateFromSource(definition, parentContext?)`:
defaults the parent context to the engine's container; if the definition has
a truthy `template` payload, optionally compiles it (resolving the named
compiler, defaulting a falsy `build.compiler` to `"default"`, and throwing
`Reporter.error(20, compilerName)` when the name is unregistered), then
wraps the resulting definition in a fresh `CompiledTemplate` (whose
constructor creates a node-sequence factory and a render context derived
from the parent context).  A falsy `template` payload yields
`noViewTemplate`. -/
def RenderingEngine.templateFromSource (e : RenderingEngine)
    (definition : TemplateDefinition) (parentContext : Option Nat) :
    Except JSError (ITemplate × RenderingEngine) :=
  let parentCtx := parentContext.getD e.containerCtx
  if templateTruthy definition.template then
    let step : Except JSError (TemplateDefinition × RenderingEngine) :=
      if definition.buildRequired then
        let compilerName :=
          if definition.buildCompiler = "" then defaultCompilerName
          else definition.buildCompiler
        match e.compilers compilerName with
        | none => .error (.codeMsg 20 compilerName)
        | some compiler =>
            .ok (compiler.compile definition,
                 { e with compileLog := definition.id :: e.compileLog })
      else .ok (definition, e)
    match step with
    | .error err => .error err
    | .ok (built, e1) =>
        .ok (.compiled e1.nextTemplateId e1.nextContextId parentCtx built,
             { e1 with nextTemplateId := e1.nextTemplateId + 1
                       nextContextId := e1.nextContextId + 1 })
  else
    .ok (.noView, e)

/-- The recursive-components hook inside `getElementTemplate`: when the
freshly built template has a non-null render context and a `componentType`
was supplied, `componentType.register(found.renderContext)` registers the
type into its own view's context. -/
def registerRecursive (e : RenderingEngine) (found : ITemplate)
    (componentType : Option Nat) : RenderingEngine :=
  match found.renderContext, componentType with
  | some ctxId, some ty =>
      { e with registrations := (ctxId, ty) :: e.registrations }
  | _, _ => e

/-- `RenderingEngine.getElementTemplate(definition, componentType?)`: `null`
for a falsy definition; otherwise a cache hit on `templateLookup` (keyed by
the definition's reference identity) returns the cached template untouched,
and a miss builds via `templateFromSource`, registers the component type
into the new template's render context via `registerRecursive`, stores the
result, and returns it. -/
def RenderingEngine.getElementTemplate (e : RenderingEngine)
    (definition : Option TemplateDefinition) (componentType : Option Nat) :
    Except JSError (Option ITemplate × RenderingEngine) :=
  match definition with
  | none => .ok (none, e)
  | some d =>
    match e.templateLookup.lookup d.id with
    | some found => .ok (some found, e)
    | none =>
      match e.templateFromSource d none with
      | .error err => .error err
      | .ok (found, e1) =>
        let e2 := registerRecursive e1 found componentType
        .ok (some found,
             { e2 with templateLookup := (d.id, found) :: e2.templateLookup })

/-- Modelled from the spec: `buildTemplateDefinition(null, definition)` lives
in `definition-builder.ts`, which is not under `src/`.  Per §6 it fills
defaults (recycling-cache size, build-required flag, etc.) and returns a
fresh, fully-specified definition object.  Every field of the model is
already present, so the normalization copies them; `freshId` is the new
object's reference identity. -/
def buildTemplateDefinition (freshId : Nat) (d : TemplateDefinition) :
    TemplateDefinition :=
  { d with id := freshId }

/-- `RenderingEngine.getViewFactory(definition, parentContext?)`: `null` for
a falsy definition; otherwise a cache hit on `factoryLookup` (keyed by the
*original* definition's reference identity) returns the cached factory and
ignores `parentContext`; a miss normalizes the definition through
`buildTemplateDefinition`, builds a template from the normalized source
against the given parent context, wraps it in a fresh `ViewFactory` named by
the normalized definition (its recycling bound taken from the normalized
definition's `cache` — `setCacheSize` itself lives in `view.ts`, outside
`src/`), caches it under the original definition, and returns it. -/
def RenderingEngine.getViewFactory (e : RenderingEngine)
    (definition : Option TemplateDefinition) (parentContext : Option Nat) :
    Except JSError (Option ViewFactory × RenderingEngine) :=
  match definition with
  | none => .ok (none, e)
  | some d =>
    match e.factoryLookup.lookup d.id with
    | some factory => .ok (some factory, e)
    | none =>
      let validSource := buildTemplateDefinition e.nextDefId d
      let e0 := { e with nextDefId := e.nextDefId + 1 }
      match e0.templateFromSource validSource parentContext with
      | .error err => .error err
      | .ok (template, e1) =>
        let factory : ViewFactory :=
          { fid := e1.nextFactoryId
            name := validSource.name
            template := template
            cacheSize := validSource.cache }
        .ok (some factory,
             { e1 with nextFactoryId := e1.nextFactoryId + 1
                       factoryLookup := (d.id, factory) :: e1.factoryLookup })

/-! ## The view factory provider -/

/-- `ViewFactoryProvider`: holds a default factory and a parts-replacement
mapping.  Neither field has an initializer in the source, so a fresh
provider holds `undefined` in both; `dispose` writes `null` into both. -/
structure ViewFactoryProvider where
  factory : JSVal ViewFactory
  replacements : JSVal TemplatePartDefinitions
deriving DecidableEq, Repr

/-- A freshly constructed `ViewFactoryProvider`: both fields are
uninitialized (`undefined`). -/
def ViewFactoryProvider.new : ViewFactoryProvider := ⟨.undef, .undef⟩

/-- `ViewFactoryProvider.prepare(factory, parts)`: stores the factory and
`parts || PLATFORM.emptyObject` (a falsy `parts` argument becomes the empty
record). -/
def ViewFactoryProvider.prepare (_p : ViewFactoryProvider)
    (factory : JSVal ViewFactory) (parts : Option TemplatePartDefinitions) :
    ViewFactoryProvider :=
  ⟨factory, .val (parts.getD [])⟩

/-- `ViewFactoryProvider.resolve(handler, requestor)`: throws
`Reporter.error(50)` when the factory slot is `undefined`; reading `.name`
of a `null` factory (the post-`dispose` state) is a `TypeError`; a factory
with a falsy (empty) name throws `Reporter.error(51)`; otherwise the
factory's name is looked up in the replacement mapping, a truthy replacement
definition is forwarded to `renderingEngine.getViewFactory(found, requestor)`,
and otherwise the default factory is returned unchanged.  The engine state
is threaded explicitly; `requestor` is the requesting context. -/
def ViewFactoryProvider.resolve (p : ViewFactoryProvider)
    (e : RenderingEngine) (requestor : Nat) :
    Except JSError (Option ViewFactory × RenderingEngine) :=
  match p.factory with
  | .undef => .error (.code 50)
  | .null => .error (.typeError "Cannot read property name of null")
  | .val factory =>
    if factory.name = "" then .error (.code 51)
    else
      match p.replacements with
      | .val replacements =>
        match replacements.lookup factory.name with
        | some found => e.getViewFactory (some found) (some requestor)
        | none => .ok (some factory, e)
      | _ => .error (.typeError "Cannot read property of nullish replacements")

/-- `ViewFactoryProvider.dispose`: writes `null` into both fields. -/
def ViewFactoryProvider.dispose (_p : ViewFactoryProvider) :
    ViewFactoryProvider := ⟨.null, .null⟩

/-! ## Render contexts -/

/-- The five scoped instance providers installed by `createRenderContext`
into a fresh child context: the current-renderable, current-element,
current-instruction and current-render-location providers (plain
`InstanceProvider`s over opaque instance identities) and the specialized
view-factory provider.  The child-container derivation, resolver
registration and dependency registration delegate to the resolution
container collaborator and have no further observable state here. -/
structure RenderContextState where
  renderableProvider : InstanceProvider Nat
  elementProvider : InstanceProvider Nat
  instructionProvider : InstanceProvider Nat
  factoryProvider : ViewFactoryProvider
  renderLocationProvider : InstanceProvider Nat
deriving DecidableEq, Repr

/-- `createRenderContext`: all five providers freshly constructed. -/
def createRenderContext : RenderContextState :=
  { renderableProvider := .new
    elementProvider := .new
    instructionProvider := .new
    factoryProvider := .new
    renderLocationProvider := .new }

/-- `context.beginComponentOperation(renderable, target, instruction,
factory?, parts?, location?)`: always prepares the renderable, element and
instruction providers; prepares the factory provider only when `factory` is
truthy and the render-location provider only when `location` is truthy. -/
def RenderContextState.beginComponentOperation (s : RenderContextState)
    (renderable target instruction : JSVal Nat)
    (factory : Option ViewFactory) (parts : Option TemplatePartDefinitions)
    (location : Option Nat) : RenderContextState :=
  let s1 :=
    { s with renderableProvider := s.renderableProvider.prepare renderable
             elementProvider := s.elementProvider.prepare target
             instructionProvider := s.instructionProvider.prepare instruction }
  let s2 :=
    match factory with
    | some f => { s1 with factoryProvider := s1.factoryProvider.prepare (.val f) parts }
    | none => s1
  match location with
  | some l =>
      { s2 with renderLocationProvider := s2.renderLocationProvider.prepare (.val l) }
  | none => s2

/-- `context.dispose()`: disposes all five providers. -/
def RenderContextState.dispose (s : RenderContextState) : RenderContextState :=
  { factoryProvider := s.factoryProvider.dispose
    renderableProvider := s.renderableProvider.dispose
    instructionProvider := s.instructionProvider.dispose
    elementProvider := s.elementProvider.dispose
    renderLocationProvider := s.renderLocationProvider.dispose }

/-! ## Intrusive lifecycle lists -/

/-- The intrusive link fields (`$prevBind`/`$nextBind`,
`$prevAttach`/`$nextAttach`) of a lifecycle list node, plus a `payload`
standing for all of its other fields.  `none` stands for `null`. -/
structure NodeData where
  prevBind : Option Nat
  nextBind : Option Nat
  prevAttach : Option Nat
  nextAttach : Option Nat
  payload : Nat
deriving DecidableEq, Repr

/-- The list heads/tails of a renderable (`$bindableHead`, `$bindableTail`,
`$attachableHead`, `$attachableTail`), plus an `other` field standing for
all of its remaining fields.  `none` stands for `null`. -/
structure RenderableLists where
  bindableHead : Option Nat
  bindableTail : Option Nat
  attachableHead : Option Nat
  attachableTail : Option Nat
  other : Nat
deriving DecidableEq, Repr

/-- Pointwise update of the node heap at one node identity. -/
def updateNode (nodes : Nat → NodeData) (i : Nat) (f : NodeData → NodeData) :
    Nat → NodeData :=
  fun j => if j = i then f (nodes j) else nodes j

/-- `addBindable(renderable, bindable)`: link the bindable behind the
current tail (`$prevBind := $bindableTail`, `$nextBind := null`), make it
the head when the list was empty and otherwise chain the old tail's
`$nextBind` to it, then make it the tail. -/
def addBindable (r : RenderableLists) (nodes : Nat → NodeData)
    (bindable : Nat) : RenderableLists × (Nat → NodeData) :=
  let nodes1 := updateNode nodes bindable
    (fun nd => { nd with prevBind := r.bindableTail, nextBind := none })
  match r.bindableTail with
  | none =>
      ({ r with bindableHead := some bindable, bindableTail := some bindable },
       nodes1)
  | some tail =>
      ({ r with bindableTail := some bindable },
       updateNode nodes1 tail (fun nd => { nd with nextBind := some bindable }))

/-- `addAttachable(renderable, attachable)`: the attach-list counterpart of
`addBindable`. -/
def addAttachable (r : RenderableLists) (nodes : Nat → NodeData)
    (attachable : Nat) : RenderableLists × (Nat → NodeData) :=
  let nodes1 := updateNode nodes attachable
    (fun nd => { nd with prevAttach := r.attachableTail, nextAttach := none })
  match r.attachableTail with
  | none =>
      ({ r with attachableHead := some attachable,
                attachableTail := some attachable },
       nodes1)
  | some tail =>
      ({ r with attachableTail := some attachable },
       updateNode nodes1 tail (fun nd => { nd with nextAttach := some attachable }))

/-- Head-to-tail traversal of the bind list along `$nextBind`, with explicit
fuel (the activation passes walk `$bindableHead` and follow `$nextBind`
until `null`). -/
def traverseNextBind (nodes : Nat → NodeData) : Option Nat → Nat → List Nat
  | none, _ => []
  | some _, 0 => []
  | some i, fuel + 1 => i :: traverseNextBind nodes ((nodes i).nextBind) fuel

/-! ## Claim C1 -/

/-- Claim C1: the spec says `resolve` on a never-prepared (or disposed)
Scoped Instance Provider fails fatally with the uninitialized-provider error.
In the source the field initializer and `dispose` both write `null`, while
the `resolve` guard (commented "unmet precondition: call prepare") checks
`=== undefined`, so the guard never fires: a fresh provider and a disposed
provider both resolve to `null` without any error. `prepare(x)` followed by
`resolve` does return exactly `x` (the prepared-`null` sentinel included). -/
theorem instanceProvider_resolve_unprepared_returns_null :
    (InstanceProvider.new (T := Nat)).resolve = .ok .null
  ∧ (∀ x : Nat, ((InstanceProvider.new (T := Nat)).prepare (.val x)).resolve
      = .ok (.val x))
  ∧ ((InstanceProvider.new (T := Nat)).prepare .null).resolve = .ok .null
  ∧ (∀ p : InstanceProvider Nat, p.dispose.resolve = .ok .null) := by
  refine ⟨rfl, fun x => rfl, rfl, fun p => rfl⟩

/-! ## Claim C6 -/

/-- Claim C6: a falsy definition argument makes both `getElementTemplate`
and `getViewFactory` return `null` as a normal outcome — no error, no
compiler invocation, and the engine state (in particular both caches and the
compile log) completely unchanged. -/
theorem falsy_definition_yields_null (e : RenderingEngine) (ct pc : Option Nat) :
    e.getElementTemplate none ct = .ok (none, e)
  ∧ e.getViewFactory none pc = .ok (none, e) :=
  ⟨rfl, rfl⟩

/-! ## Claim C3 -/

/-- Claim C3: a `ViewFactoryProvider` prepared with default factory `F`
(non-empty name) and replacement map `P` resolves, when `P` holds a
replacement definition under `F.name`, to exactly what the rendering engine
returns for `getViewFactory(replacement, requestor)` — it does not return
`F`, nor a factory it caches itself; when `P` has no entry for `F.name`, it
returns `F` unchanged (and leaves the engine untouched). -/
theorem viewFactoryProvider_resolve_replacement (e : RenderingEngine)
    (F : ViewFactory) (P : TemplatePartDefinitions) (req : Nat)
    (hname : F.name ≠ "") :
    (ViewFactoryProvider.new.prepare (.val F) (some P)).resolve e req
      = match P.lookup F.name with
        | some found => e.getViewFactory (some found) (some req)
        | none => .ok (some F, e) := by
  simp only [ViewFactoryProvider.prepare, ViewFactoryProvider.new,
    ViewFactoryProvider.resolve, Option.getD]
  rw [if_neg hname]

def c3R : TemplateDefinition :=
  { id := 2, name := "replacement", template := some "<r/>",
    buildRequired := false, buildCompiler := "", dependencies := [], cache := 1 }

def c3F : ViewFactory := { fid := 5, name := "part1", template := .noView, cacheSize := 0 }

def c3P : TemplatePartDefinitions := [("part1", c3R)]

/-- Witness for C3 at a concrete provider: the replacement map holds an
entry for the default factory's name, and `resolve` forwards to
`getViewFactory` on the replacement definition. -/
theorem viewFactoryProvider_resolve_replacement_witness :
    (ViewFactoryProvider.new.prepare (.val c3F) (some c3P)).resolve
        (RenderingEngine.new [] 0) 7
      = (RenderingEngine.new [] 0).getViewFactory (some c3R) (some 7) :=
  viewFactoryProvider_resolve_replacement (RenderingEngine.new [] 0) c3F c3P 7
    (by decide)

/-! ## Claim C7 -/

def c7F : ViewFactory := { fid := 0, name := "part", template := .noView, cacheSize := 0 }

def c7Fresh : RenderContextState := createRenderContext

def c7Disposed : RenderContextState :=
  (createRenderContext.beginComponentOperation
      (.val 1) (.val 2) (.val 3) (some c7F) none none).dispose

/-- Claim C7: the spec says `beginComponentOperation` followed by
`dispose()` resets all five scoped providers to their unset state, so a
second `beginComponentOperation` behaves as on a fresh context.  On the
code, the four plain instance providers do return to their initial state
(`null` — itself not the error-raising unset state, see C1), but the
view-factory provider does not: a fresh provider holds `undefined` and its
`resolve` raises the uninitialized-provider error 50, while the disposed
provider holds `null` and `resolve` instead crashes reading `.name` of
`null`; consequently a second `beginComponentOperation` that omits the
factory argument leaves the context observably different from a fresh
one. -/
theorem beginThenDispose_factoryProvider_differs_from_fresh
    (eng : RenderingEngine) :
    c7Disposed.renderableProvider = c7Fresh.renderableProvider
  ∧ c7Disposed.elementProvider = c7Fresh.elementProvider
  ∧ c7Disposed.instructionProvider = c7Fresh.instructionProvider
  ∧ c7Disposed.renderLocationProvider = c7Fresh.renderLocationProvider
  ∧ c7Disposed.factoryProvider ≠ c7Fresh.factoryProvider
  ∧ c7Fresh.factoryProvider.resolve eng 0 = .error (.code 50)
  ∧ c7Disposed.factoryProvider.resolve eng 0
      = .error (.typeError "Cannot read property name of null")
  ∧ (c7Disposed.beginComponentOperation (.val 1) (.val 2) (.val 3)
        none none none).factoryProvider
      ≠ (c7Fresh.beginComponentOperation (.val 1) (.val 2) (.val 3)
        none none none).factoryProvider :=
  ⟨rfl, rfl, rfl, rfl, by decide, rfl, rfl, by decide⟩

/-! ## Claim C5 -/

/-- Claim C5: a definition whose template payload is empty or absent,
regardless of its other fields (build flags, dependencies, cache), yields
the canonical no-view template: `templateFromSource` returns `noViewTemplate`
without touching the engine, `getElementTemplate` caches and returns it
(skipping the recursive-component registration, since the render context is
null), its `renderContext` is null, and its `render` assigns the empty node
projection and a null context to the renderable. -/
theorem empty_template_payload_yields_noView (e : RenderingEngine)
    (d : TemplateDefinition) (pc ct : Option Nat) (r : RenderTarget)
    (ht : templateTruthy d.template = false)
    (hc : e.templateLookup.lookup d.id = none) :
    e.templateFromSource d pc = .ok (.noView, e)
  ∧ e.getElementTemplate (some d) ct
      = .ok (some .noView,
             { e with templateLookup := (d.id, .noView) :: e.templateLookup })
  ∧ ITemplate.noView.renderContext = none
  ∧ ITemplate.render .noView r
      = { r with nodes := .val .empty, context := .null } := by
  refine ⟨?_, ?_, rfl, rfl⟩
  · simp [RenderingEngine.templateFromSource, ht]
  · simp [RenderingEngine.getElementTemplate, RenderingEngine.templateFromSource,
      registerRecursive, ITemplate.renderContext, hc, ht]

def c5D : TemplateDefinition :=
  { id := 0, name := "logic-only", template := none,
    buildRequired := true, buildCompiler := "missing", dependencies := [3], cache := 7 }

/-- Witness for C5 at a concrete definition with an absent template payload
but otherwise fully populated fields. -/
theorem empty_template_payload_yields_noView_witness :
    (RenderingEngine.new [] 0).templateFromSource c5D none
      = .ok (.noView, RenderingEngine.new [] 0)
  ∧ (RenderingEngine.new [] 0).getElementTemplate (some c5D) (some 9)
      = .ok (some .noView,
             { RenderingEngine.new [] 0 with
                 templateLookup := (c5D.id, .noView)
                   :: (RenderingEngine.new [] 0).templateLookup })
  ∧ ITemplate.noView.renderContext = none
  ∧ ITemplate.render .noView { nodes := .undef, context := .undef }
      = { nodes := .val .empty, context := .null } :=
  empty_template_payload_yields_noView (RenderingEngine.new [] 0) c5D none (some 9)
    { nodes := .undef, context := .undef } (by decide) rfl

/-! ## Claim C4 -/

theorem compilerRegistry_foldl_eq_none (cs : List ITemplateCompiler)
    (acc : String → Option ITemplateCompiler) (n : String)
    (h : ∀ c ∈ cs, c.name ≠ n) (hacc : acc n = none) :
    (cs.foldl
      (fun a item => fun m => if m = item.name then some item else a m) acc) n
      = none := by
  induction cs generalizing acc with
  | nil => simpa using hacc
  | cons c rest ih =>
    simp only [List.foldl_cons]
    apply ih
    · intro c2 hc2
      exact h c2 (List.mem_cons_of_mem _ hc2)
    · have hcn : c.name ≠ n := h c (List.mem_cons_self _ _)
      have : ¬(n = c.name) := fun hn => hcn hn.symm
      simp only [this, if_false, hacc, ite_eq_right_iff]

theorem buildCompilerRegistry_eq_none (cs : List ITemplateCompiler) (n : String)
    (h : ∀ c ∈ cs, c.name ≠ n) : buildCompilerRegistry cs n = none :=
  compilerRegistry_foldl_eq_none cs _ n h rfl

/-- Claim C4: for a definition with a truthy template payload that is marked
requires-build, `templateFromSource` resolves the compiler named by the
definition — defaulting a falsy `build.compiler` to `"default"` — from the
registry built at engine construction, and when no compiler of that name was
registered it fails fatally with `Reporter.error(20, compilerName)`, naming
the offending compiler, producing no template and falling back to
nothing. -/
theorem templateFromSource_unknown_compiler_fatal (e : RenderingEngine)
    (cs : List ITemplateCompiler) (d : TemplateDefinition) (pc : Option Nat)
    (hreg : e.compilers = buildCompilerRegistry cs)
    (ht : templateTruthy d.template = true)
    (hb : d.buildRequired = true)
    (hc : ∀ c ∈ cs,
      c.name ≠ (if d.buildCompiler = "" then defaultCompilerName
                else d.buildCompiler)) :
    e.templateFromSource d pc
      = .error (.codeMsg 20
          (if d.buildCompiler = "" then defaultCompilerName
           else d.buildCompiler)) := by
  have hnone : e.compilers
      (if d.buildCompiler = "" then defaultCompilerName else d.buildCompiler)
      = none := by
    rw [hreg]
    exact buildCompilerRegistry_eq_none cs _ hc
  simp [RenderingEngine.templateFromSource, ht, hb, hnone]

def c4Compiler : ITemplateCompiler := { name := "other", compile := fun d => d }

def c4D : TemplateDefinition :=
  { id := 1, name := "x", template := some "<div/>",
    buildRequired := true, buildCompiler := "jit", dependencies := [], cache := 0 }

/-- Witness for C4: an engine constructed with one compiler named `"other"`
cannot compile a definition asking for compiler `"jit"` and reports exactly
that name in the fatal error. -/
theorem templateFromSource_unknown_compiler_fatal_witness :
    (RenderingEngine.new [c4Compiler] 0).templateFromSource c4D none
      = .error (.codeMsg 20 "jit") :=
  templateFromSource_unknown_compiler_fatal (RenderingEngine.new [c4Compiler] 0)
    [c4Compiler] c4D none rfl (by decide) rfl
    (by intro c hcmem
        simp only [List.mem_singleton] at hcmem
        subst hcmem
        decide)

/-! ## Claim C8 -/

/-- Claim C8: on a renderable whose list fields start `null`, adding three
distinct bindables A, B, C via `addBindable` in that order produces
`$bindableHead = A`, `$bindableTail = C`, forward links A → B → C → null,
and backward links `A.$prevBind = null`, `B.$prevBind = A`,
`C.$prevBind = B`; traversal from the head along `$nextBind` yields exactly
`[A, B, C]` — append-at-tail in first-registered order. -/
theorem addBindable_three_in_order (nodes : Nat → NodeData) (other : Nat)
    (A B C : Nat) (hAB : A ≠ B) (hAC : A ≠ C) (hBC : B ≠ C) :
    let r0 : RenderableLists :=
      { bindableHead := none, bindableTail := none,
        attachableHead := none, attachableTail := none, other := other }
    let s1 := addBindable r0 nodes A
    let s2 := addBindable s1.1 s1.2 B
    let s3 := addBindable s2.1 s2.2 C
    s3.1.bindableHead = some A
  ∧ s3.1.bindableTail = some C
  ∧ (s3.2 A).prevBind = none ∧ (s3.2 A).nextBind = some B
  ∧ (s3.2 B).prevBind = some A ∧ (s3.2 B).nextBind = some C
  ∧ (s3.2 C).prevBind = some B ∧ (s3.2 C).nextBind = none
  ∧ traverseNextBind s3.2 s3.1.bindableHead 3 = [A, B, C] := by
  simp [addBindable, updateNode, traverseNextBind,
    hAB, hAC, hBC, Ne.symm hAB, Ne.symm hAC, Ne.symm hBC]

def c8nodes : Nat → NodeData :=
  fun _ => { prevBind := none, nextBind := none,
             prevAttach := none, nextAttach := none, payload := 0 }

def c8r0 : RenderableLists :=
  { bindableHead := none, bindableTail := none,
    attachableHead := none, attachableTail := none, other := 0 }

def c8s1 : RenderableLists × (Nat → NodeData) := addBindable c8r0 c8nodes 0

def c8s2 : RenderableLists × (Nat → NodeData) := addBindable c8s1.1 c8s1.2 1

def c8s3 : RenderableLists × (Nat → NodeData) := addBindable c8s2.1 c8s2.2 2

/-- Witness for C8 with bindables 0, 1, 2 on an initially empty
renderable. -/
theorem addBindable_three_in_order_witness :
    c8s3.1.bindableHead = some 0
  ∧ c8s3.1.bindableTail = some 2
  ∧ (c8s3.2 0).prevBind = none ∧ (c8s3.2 0).nextBind = some 1
  ∧ (c8s3.2 1).prevBind = some 0 ∧ (c8s3.2 1).nextBind = some 2
  ∧ (c8s3.2 2).prevBind = some 1 ∧ (c8s3.2 2).nextBind = none
  ∧ traverseNextBind c8s3.2 c8s3.1.bindableHead 3 = [0, 1, 2] :=
  addBindable_three_in_order c8nodes 0 0 1 2
    (by decide) (by decide) (by decide)

/-! ## Claim C10 -/

/-- Claim C10: `addBindable(renderable, bindable)` touches only the bind
list: on the renderable it leaves the attach head/tail and every other field
unchanged; on the bindable it leaves the attach links and payload unchanged;
a node distinct from the bindable and from the old bind tail is untouched
entirely; and the old bind tail changes only its `$nextBind` — its
`$prevBind`, attach links and payload survive.  `addAttachable`
symmetrically touches only the attach list. -/
theorem addBindable_addAttachable_frame (r : RenderableLists)
    (nodes : Nat → NodeData) (b n tb ta : Nat)
    (hnb : n ≠ b) (htbb : tb ≠ b) (htab : ta ≠ b)
    (hntb : n ≠ tb) (hnta : n ≠ ta)
    (hbt : r.bindableTail = some tb) (hat : r.attachableTail = some ta) :
    ((addBindable r nodes b).1.attachableHead = r.attachableHead
   ∧ (addBindable r nodes b).1.attachableTail = r.attachableTail
   ∧ (addBindable r nodes b).1.other = r.other)
  ∧ (((addBindable r nodes b).2 b).prevAttach = (nodes b).prevAttach
   ∧ ((addBindable r nodes b).2 b).nextAttach = (nodes b).nextAttach
   ∧ ((addBindable r nodes b).2 b).payload = (nodes b).payload)
  ∧ (addBindable r nodes b).2 n = nodes n
  ∧ (((addBindable r nodes b).2 tb).prevBind = (nodes tb).prevBind
   ∧ ((addBindable r nodes b).2 tb).prevAttach = (nodes tb).prevAttach
   ∧ ((addBindable r nodes b).2 tb).nextAttach = (nodes tb).nextAttach
   ∧ ((addBindable r nodes b).2 tb).payload = (nodes tb).payload)
  ∧ ((addAttachable r nodes b).1.bindableHead = r.bindableHead
   ∧ (addAttachable r nodes b).1.bindableTail = r.bindableTail
   ∧ (addAttachable r nodes b).1.other = r.other)
  ∧ (((addAttachable r nodes b).2 b).prevBind = (nodes b).prevBind
   ∧ ((addAttachable r nodes b).2 b).nextBind = (nodes b).nextBind
   ∧ ((addAttachable r nodes b).2 b).payload = (nodes b).payload)
  ∧ (addAttachable r nodes b).2 n = nodes n
  ∧ (((addAttachable r nodes b).2 ta).prevAttach = (nodes ta).prevAttach
   ∧ ((addAttachable r nodes b).2 ta).prevBind = (nodes ta).prevBind
   ∧ ((addAttachable r nodes b).2 ta).nextBind = (nodes ta).nextBind
   ∧ ((addAttachable r nodes b).2 ta).payload = (nodes ta).payload) := by
  simp [addBindable, addAttachable, updateNode, hbt, hat,
    hnb, htbb, htab, hntb, hnta,
    Ne.symm hnb, Ne.symm htbb, Ne.symm htab, Ne.symm hntb, Ne.symm hnta]

def c10nodes : Nat → NodeData :=
  fun _ => { prevBind := none, nextBind := none,
             prevAttach := none, nextAttach := none, payload := 9 }

def c10r : RenderableLists :=
  { bindableHead := some 10, bindableTail := some 1,
    attachableHead := some 20, attachableTail := some 2, other := 5 }

/-- Witness for C10 on a renderable whose bind tail is node 1 and attach
tail is node 2, adding node 3 and observing node 4. -/
theorem addBindable_addAttachable_frame_witness :
    (((addBindable c10r c10nodes 3).1.attachableHead = c10r.attachableHead
   ∧ (addBindable c10r c10nodes 3).1.attachableTail = c10r.attachableTail
   ∧ (addBindable c10r c10nodes 3).1.other = c10r.other)
  ∧ (((addBindable c10r c10nodes 3).2 3).prevAttach = (c10nodes 3).prevAttach
   ∧ ((addBindable c10r c10nodes 3).2 3).nextAttach = (c10nodes 3).nextAttach
   ∧ ((addBindable c10r c10nodes 3).2 3).payload = (c10nodes 3).payload)
  ∧ (addBindable c10r c10nodes 3).2 4 = c10nodes 4
  ∧ (((addBindable c10r c10nodes 3).2 1).prevBind = (c10nodes 1).prevBind
   ∧ ((addBindable c10r c10nodes 3).2 1).prevAttach = (c10nodes 1).prevAttach
   ∧ ((addBindable c10r c10nodes 3).2 1).nextAttach = (c10nodes 1).nextAttach
   ∧ ((addBindable c10r c10nodes 3).2 1).payload = (c10nodes 1).payload)
  ∧ ((addAttachable c10r c10nodes 3).1.bindableHead = c10r.bindableHead
   ∧ (addAttachable c10r c10nodes 3).1.bindableTail = c10r.bindableTail
   ∧ (addAttachable c10r c10nodes 3).1.other = c10r.other)
  ∧ (((addAttachable c10r c10nodes 3).2 3).prevBind = (c10nodes 3).prevBind
   ∧ ((addAttachable c10r c10nodes 3).2 3).nextBind = (c10nodes 3).nextBind
   ∧ ((addAttachable c10r c10nodes 3).2 3).payload = (c10nodes 3).payload)
  ∧ (addAttachable c10r c10nodes 3).2 4 = c10nodes 4
  ∧ (((addAttachable c10r c10nodes 3).2 2).prevAttach = (c10nodes 2).prevAttach
   ∧ ((addAttachable c10r c10nodes 3).2 2).prevBind = (c10nodes 2).prevBind
   ∧ ((addAttachable c10r c10nodes 3).2 2).nextBind = (c10nodes 2).nextBind
   ∧ ((addAttachable c10r c10nodes 3).2 2).payload = (c10nodes 2).payload)) :=
  addBindable_addAttachable_frame c10r c10nodes 3 4 1 2
    (by decide) (by decide) (by decide) (by decide) (by decide) rfl rfl

/-! ## State lemmas for the engine's caches -/

theorem templateFromSource_ok_state {e : RenderingEngine}
    {d : TemplateDefinition} {pc : Option Nat} {t : ITemplate}
    {e1 : RenderingEngine} (h : e.templateFromSource d pc = .ok (t, e1)) :
    e1.templateLookup = e.templateLookup
  ∧ e1.factoryLookup = e.factoryLookup
  ∧ e1.compilers = e.compilers
  ∧ e1.containerCtx = e.containerCtx
  ∧ (e1.compileLog = e.compileLog ∨ e1.compileLog = d.id :: e.compileLog) := by
  cases ht : templateTruthy d.template with
  | false =>
    simp only [RenderingEngine.templateFromSource, ht, Bool.false_eq_true,
      if_false, Except.ok.injEq, Prod.mk.injEq] at h
    obtain ⟨h1, h2⟩ := h
    subst h2
    exact ⟨rfl, rfl, rfl, rfl, Or.inl rfl⟩
  | true =>
    cases hb : d.buildRequired with
    | false =>
      simp only [RenderingEngine.templateFromSource, ht, hb,
        Bool.false_eq_true, if_false, if_true, Except.ok.injEq,
        Prod.mk.injEq] at h
      obtain ⟨h1, h2⟩ := h
      subst h2
      exact ⟨rfl, rfl, rfl, rfl, Or.inl rfl⟩
    | true =>
      cases hcomp : e.compilers
          (if d.buildCompiler = "" then defaultCompilerName
           else d.buildCompiler) with
      | none =>
        simp only [RenderingEngine.templateFromSource, ht, hb, if_true,
          hcomp] at h
        exact absurd h (by simp)
      | some compiler =>
        simp only [RenderingEngine.templateFromSource, ht, hb, if_true,
          hcomp, Except.ok.injEq, Prod.mk.injEq] at h
        obtain ⟨h1, h2⟩ := h
        subst h2
        exact ⟨rfl, rfl, rfl, rfl, Or.inr rfl⟩

theorem registerRecursive_state (e : RenderingEngine) (found : ITemplate)
    (ct : Option Nat) :
    (registerRecursive e found ct).templateLookup = e.templateLookup
  ∧ (registerRecursive e found ct).factoryLookup = e.factoryLookup
  ∧ (registerRecursive e found ct).compilers = e.compilers
  ∧ (registerRecursive e found ct).compileLog = e.compileLog := by
  cases found <;> cases ct <;> exact ⟨rfl, rfl, rfl, rfl⟩

theorem getElementTemplate_hit {e : RenderingEngine} {d : TemplateDefinition}
    {t : ITemplate} (ct : Option Nat)
    (h : e.templateLookup.lookup d.id = some t) :
    e.getElementTemplate (some d) ct = .ok (some t, e) := by
  simp only [RenderingEngine.getElementTemplate, h]

theorem getElementTemplate_ok_state {e : RenderingEngine}
    {d : TemplateDefinition} {ct : Option Nat} {r : Option ITemplate}
    {e2 : RenderingEngine} (h : e.getElementTemplate (some d) ct = .ok (r, e2)) :
    (∃ t, e.templateLookup.lookup d.id = some t ∧ r = some t ∧ e2 = e)
  ∨ (e.templateLookup.lookup d.id = none
     ∧ ∃ t, r = some t
        ∧ e2.templateLookup.lookup d.id = some t
        ∧ (∀ j, j ≠ d.id →
            e2.templateLookup.lookup j = e.templateLookup.lookup j)
        ∧ e2.compilers = e.compilers
        ∧ e2.factoryLookup = e.factoryLookup
        ∧ (e2.compileLog = e.compileLog
           ∨ e2.compileLog = d.id :: e.compileLog)) := by
  cases hl : e.templateLookup.lookup d.id with
  | some found =>
    left
    simp only [RenderingEngine.getElementTemplate, hl, Except.ok.injEq,
      Prod.mk.injEq] at h
    obtain ⟨h1, h2⟩ := h
    exact ⟨found, rfl, h1.symm, h2.symm⟩
  | none =>
    right
    refine ⟨rfl, ?_⟩
    simp only [RenderingEngine.getElementTemplate, hl] at h
    cases hs : e.templateFromSource d none with
    | error err =>
      rw [hs] at h
      exact absurd h (by simp)
    | ok p =>
      obtain ⟨found, e1⟩ := p
      rw [hs] at h
      simp only [Except.ok.injEq, Prod.mk.injEq] at h
      obtain ⟨h1, h2⟩ := h
      obtain ⟨hTL, hFL, hCP, _hCC, hLOG⟩ := templateFromSource_ok_state hs
      obtain ⟨rTL, rFL, rCP, rLOG⟩ := registerRecursive_state e1 found ct
      subst h2
      refine ⟨found, h1.symm, ?_, ?_, ?_, ?_, ?_⟩
      · show ((d.id, found)
            :: (registerRecursive e1 found ct).templateLookup).lookup d.id
          = some found
        simp [List.lookup]
      · intro j hj
        have hbeq : (j == d.id) = false := beq_eq_false_iff_ne.mpr hj
        show ((d.id, found)
            :: (registerRecursive e1 found ct).templateLookup).lookup j
          = e.templateLookup.lookup j
        simp only [List.lookup, hbeq]
        rw [rTL, hTL]
      · show (registerRecursive e1 found ct).compilers = e.compilers
        rw [rCP, hCP]
      · show (registerRecursive e1 found ct).factoryLookup = e.factoryLookup
        rw [rFL, hFL]
      · show (registerRecursive e1 found ct).compileLog = e.compileLog
          ∨ (registerRecursive e1 found ct).compileLog = d.id :: e.compileLog
        rw [rLOG]
        exact hLOG

/-! ## The at-most-once compilation invariant -/

/-- States reachable by element-template requests satisfy: each definition
identity has been handed to the compiler at most once, and anything ever
compiled is cached. -/
def CompileInv (e : RenderingEngine) : Prop :=
  ∀ i, e.compileLog.count i ≤ 1
     ∧ (i ∈ e.compileLog → (e.templateLookup.lookup i).isSome = true)

theorem compileInv_new (cs : List ITemplateCompiler) (root : Nat) :
    CompileInv (RenderingEngine.new cs root) := by
  intro i
  refine ⟨?_, ?_⟩
  · simp [RenderingEngine.new]
  · intro hmem
    simp [RenderingEngine.new] at hmem

theorem compileInv_step {e : RenderingEngine} {d : TemplateDefinition}
    {ct : Option Nat} {r : Option ITemplate} {e2 : RenderingEngine}
    (hinv : CompileInv e) (h : e.getElementTemplate (some d) ct = .ok (r, e2)) :
    CompileInv e2 := by
  rcases getElementTemplate_ok_state h with
    ⟨t, _hl, _hr, he2⟩ | ⟨hl0, t, _hr, hcache, hpres, _hcp, _hfl, hlog⟩
  · rw [he2]
    exact hinv
  · intro i
    rcases hlog with hlog | hlog
    · refine ⟨?_, ?_⟩
      · rw [hlog]
        exact (hinv i).1
      · intro hi
        rw [hlog] at hi
        by_cases hij : i = d.id
        · subst hij
          rw [hcache]
          rfl
        · rw [hpres i hij]
          exact (hinv i).2 hi
    · refine ⟨?_, ?_⟩
      · rw [hlog]
        by_cases hij : i = d.id
        · subst hij
          have hnot : d.id ∉ e.compileLog := by
            intro hmem
            have hsome := (hinv d.id).2 hmem
            rw [hl0] at hsome
            exact Bool.noConfusion hsome
          have hzero : e.compileLog.count d.id = 0 :=
            List.count_eq_zero.mpr hnot
          rw [List.count_cons_self, hzero]
        · rw [List.count_cons_of_ne hij]
          exact (hinv i).1
      · intro hi
        by_cases hij : i = d.id
        · subst hij
          rw [hcache]
          rfl
        · rw [hpres i hij]
          apply (hinv i).2
          rw [hlog] at hi
          rcases List.mem_cons.mp hi with hik | hik
          · exact absurd hik hij
          · exact hik

/-- A sequence of `getElementTemplate` requests threading the engine state;
a thrown error aborts the remainder of the sequence with the mutations made
before the throw (none, for this operation) kept. -/
def runElementCalls :
    RenderingEngine → List (Option TemplateDefinition × Option Nat) →
    RenderingEngine
  | e, [] => e
  | e, (d, ct) :: rest =>
    match e.getElementTemplate d ct with
    | .ok (_, e1) => runElementCalls e1 rest
    | .error _ => e

theorem compileInv_run (e : RenderingEngine)
    (reqs : List (Option TemplateDefinition × Option Nat))
    (hinv : CompileInv e) : CompileInv (runElementCalls e reqs) := by
  induction reqs generalizing e with
  | nil => exact hinv
  | cons req rest ih =>
    obtain ⟨d, ct⟩ := req
    cases d with
    | none => exact ih e hinv
    | some d0 =>
      cases hcall : e.getElementTemplate (some d0) ct with
      | ok p =>
        obtain ⟨r, e1⟩ := p
        have hrun : runElementCalls e ((some d0, ct) :: rest)
            = runElementCalls e1 rest := by
          simp [runElementCalls, hcall]
        rw [hrun]
        exact ih e1 (compileInv_step hinv hcall)
      | error err =>
        have hrun : runElementCalls e ((some d0, ct) :: rest) = e := by
          simp [runElementCalls, hcall]
        rw [hrun]
        exact hinv

/-! ## Claim C2 -/

/-- Claim C2: after any sequence of `getElementTemplate` requests on a
freshly constructed engine, a successful call for a non-falsy definition `D`
is idempotent — a second call with any component type returns the identical
template object and the identical engine state — and across the entire
history the compiler has been invoked at most once with `D`. -/
theorem getElementTemplate_memoized (cs : List ITemplateCompiler) (root : Nat)
    (reqs : List (Option TemplateDefinition × Option Nat))
    (D : TemplateDefinition) (ct ct2 : Option Nat)
    (r : Option ITemplate) (e2 : RenderingEngine)
    (h : (runElementCalls (RenderingEngine.new cs root) reqs).getElementTemplate
        (some D) ct = .ok (r, e2)) :
    e2.getElementTemplate (some D) ct2 = .ok (r, e2)
  ∧ e2.compileLog.count D.id ≤ 1 := by
  have hinv : CompileInv (runElementCalls (RenderingEngine.new cs root) reqs) :=
    compileInv_run _ _ (compileInv_new cs root)
  have hinv2 : CompileInv e2 := compileInv_step hinv h
  refine ⟨?_, (hinv2 D.id).1⟩
  rcases getElementTemplate_ok_state h with
    ⟨t, hl, hr, he2⟩ | ⟨_hl0, t, hr, hcache, _⟩
  · subst hr
    rw [he2]
    exact getElementTemplate_hit ct2 hl
  · subst hr
    exact getElementTemplate_hit ct2 hcache

def c2E : RenderingEngine := RenderingEngine.new [] 0

def c2D : TemplateDefinition :=
  { id := 0, name := "el", template := some "<el/>",
    buildRequired := false, buildCompiler := "", dependencies := [], cache := 0 }

def c2Pair : Option ITemplate × RenderingEngine :=
  match c2E.getElementTemplate (some c2D) none with
  | .ok p => p
  | .error _ => (none, c2E)

/-- Witness for C2 on a fresh engine and an empty prior history: the first
call succeeds, the second call returns the identical template and state,
and the compiler ran at most once for the definition. -/
theorem getElementTemplate_memoized_witness :
    c2E.getElementTemplate (some c2D) none = .ok (c2Pair.1, c2Pair.2)
  ∧ (c2Pair.2.getElementTemplate (some c2D) none = .ok (c2Pair.1, c2Pair.2)
     ∧ c2Pair.2.compileLog.count c2D.id ≤ 1) :=
  ⟨rfl, getElementTemplate_memoized [] 0 [] c2D none none c2Pair.1 c2Pair.2 rfl⟩

/-! ## Claim C9 -/

theorem getViewFactory_hit {e : RenderingEngine} {d : TemplateDefinition}
    {f : ViewFactory} (pc : Option Nat)
    (h : e.factoryLookup.lookup d.id = some f) :
    e.getViewFactory (some d) pc = .ok (some f, e) := by
  simp only [RenderingEngine.getViewFactory, h]

theorem getViewFactory_ok_cached {e : RenderingEngine}
    {d : TemplateDefinition} {pc : Option Nat} {f : Option ViewFactory}
    {e1 : RenderingEngine} (h : e.getViewFactory (some d) pc = .ok (f, e1)) :
    ∃ fac, f = some fac ∧ e1.factoryLookup.lookup d.id = some fac := by
  cases hl : e.factoryLookup.lookup d.id with
  | some fac =>
    simp only [RenderingEngine.getViewFactory, hl, Except.ok.injEq,
      Prod.mk.injEq] at h
    obtain ⟨h1, h2⟩ := h
    subst h2
    exact ⟨fac, h1.symm, hl⟩
  | none =>
    simp only [RenderingEngine.getViewFactory, hl] at h
    cases hs : ({ e with nextDefId := e.nextDefId + 1 } :
        RenderingEngine).templateFromSource
        (buildTemplateDefinition e.nextDefId d) pc with
    | error err =>
      rw [hs] at h
      exact absurd h (by simp)
    | ok p =>
      obtain ⟨template, e3⟩ := p
      rw [hs] at h
      simp only [Except.ok.injEq, Prod.mk.injEq] at h
      obtain ⟨h1, h2⟩ := h
      subst h2
      refine ⟨_, h1.symm, ?_⟩
      simp [List.lookup]

/-- Claim C9 (implicit): once a call `getViewFactory(D, c1)` has succeeded,
any later call `getViewFactory(D, c2)` with any parent context returns that
very cached factory and leaves the engine untouched — the `parentContext`
argument plays no role on a cache hit, so the cached factory's template
stays anchored to whatever parent context the first call supplied. -/
theorem getViewFactory_ignores_parentContext_after_cache (e : RenderingEngine)
    (D : TemplateDefinition) (c1 c2 : Option Nat) (f : Option ViewFactory)
    (e1 : RenderingEngine)
    (h : e.getViewFactory (some D) c1 = .ok (f, e1)) :
    e1.getViewFactory (some D) c2 = .ok (f, e1) := by
  obtain ⟨fac, rfl, hcache⟩ := getViewFactory_ok_cached h
  exact getViewFactory_hit c2 hcache

def c9E : RenderingEngine := RenderingEngine.new [] 0

def c9D : TemplateDefinition :=
  { id := 4, name := "v", template := some "<v/>",
    buildRequired := false, buildCompiler := "", dependencies := [], cache := 2 }

def c9Pair : Option ViewFactory × RenderingEngine :=
  match c9E.getViewFactory (some c9D) (some 3) with
  | .ok p => p
  | .error _ => (none, c9E)

/-- Witness for C9: a first call with parent context 3 caches a factory; a
later call with parent context 99 returns the identical factory and
state. -/
theorem getViewFactory_ignores_parentContext_after_cache_witness :
    c9E.getViewFactory (some c9D) (some 3) = .ok (c9Pair.1, c9Pair.2)
  ∧ c9Pair.2.getViewFactory (some c9D) (some 99) = .ok (c9Pair.1, c9Pair.2) :=
  ⟨rfl, getViewFactory_ignores_parentContext_after_cache c9E c9D (some 3)
    (some 99) c9Pair.1 c9Pair.2 rfl⟩

end Aurelia
